import Mathlib

/-!
# Verification of the caddy-x402pay payment-challenge middleware

Shallow embedding of the x402 buyer and seller Caddy middlewares and the
facilitator app configuration, translated from the Go sources.  External
collaborators (the JSON codec, the go-ethereum keccak hash, the facilitator
library's `CreatePaymentRequirements` / `Verify` / `Settle` and
`client.CreatePaymentPayload`) are abstracted as explicit function
parameters; everything the middlewares themselves compute is embedded
directly.
-/

namespace X402Pay

/-! ## Data model (`types` package, as consumed by the middlewares) -/

/-- `types.PaymentRequirements` as the middlewares consume it. -/
structure PaymentRequirements where
  scheme : String
  network : String
  resource : String
  description : String
  payTo : String
  maxAmountRequired : String
  deriving DecidableEq

/-- `types.PaymentPayload`: the fields the seller middleware reads after
decoding the `X-Payment` header. -/
structure PaymentPayload where
  scheme : String
  network : String
  deriving DecidableEq

/-- `types.VerifyRequest`: pairs the decoded payload with the recomputed
requirements. -/
structure VerifyRequest where
  paymentPayload : PaymentPayload
  paymentRequirements : PaymentRequirements
  deriving DecidableEq

/-- `types.VerifyResponse`. -/
structure VerifyResponse where
  isValid : Bool
  invalidReason : String
  deriving DecidableEq

/-- `types.SettleResponse`. -/
structure SettleResponse where
  success : Bool
  payer : String
  transaction : String
  errorReason : String
  deriving DecidableEq

/-- `ChainNetworkConfig` from `facilitator_app.go`: static description of one
blockchain network. -/
structure ChainNetworkConfig where
  name : String
  rpc : String
  id : Nat
  tokenAddress : String
  tokenName : String
  tokenVersion : String
  tokenDecimals : Int
  tokenType : String
  deriving DecidableEq

/-- The facilitator instance obtained through `GetFacilitator`, abstracted by
the three operations the seller middleware calls on it.  `Verify` and `Settle`
are modelled as functions of the request (the per-request context argument
carries no data relevant to the embedding). -/
structure Facilitator where
  createPaymentRequirements :
    String → String → String → String → String → Except String PaymentRequirements
  verify : VerifyRequest → Except String VerifyResponse
  settle : VerifyRequest → Except String SettleResponse

/-! ## Seller middleware (`X402SellerMiddleware`) -/

/-- The configuration fields of `X402SellerMiddleware`. -/
structure SellerConfig where
  scheme : String
  network : String
  resource : String
  description : String
  maxAmountRequired : String
  payTo : String
  deriving DecidableEq

/-- One call made on the facilitator instance during `processPayment`,
recorded in order. -/
inductive FacCall where
  | verifyCall (req : VerifyRequest)
  | settleCall (req : VerifyRequest)
  deriving DecidableEq

/-- The JSON body the seller writes: either a `types.ErrorResponse`
(`error`, `message`, `code`) or the 402 challenge object
(`error`, `message`, `code`, `paymentRequirements`). -/
inductive SellerBody where
  | errJson (error message : String) (code : Nat)
  | challengeJson (error message : String) (code : Nat)
      (paymentRequirements : PaymentRequirements)
  deriving DecidableEq

/-- An HTTP response written by the seller middleware itself: the headers it
sets (in order), the status code it writes, and the JSON body it encodes. -/
structure SellerResponse where
  headers : List (String × String)
  status : Nat
  body : SellerBody
  deriving DecidableEq

/-- Outcome of the seller's `ServeHTTP`: either the middleware wrote its own
response, or control passed to the downstream handler (`next.ServeHTTP`). -/
inductive SellerResult where
  | respond (resp : SellerResponse)
  | next
  deriving DecidableEq

/-- `processPayment` from the seller middleware, instrumented with the list of
facilitator calls it performs.  `facilitator` is the result of
`m.facilitatorApp.GetFacilitator()` (`none` models a nil facilitator);
`decode` is `json.Unmarshal` into `types.PaymentPayload` applied to the
header string. -/
def processPayment (facilitator : Option Facilitator)
    (decode : String → Except String PaymentPayload)
    (m : SellerConfig) (paymentHeader : String) :
    Except String Unit × List FacCall :=
  match facilitator with
  | none => (Except.error "facilitator is not initialized", [])
  | some f =>
    match decode paymentHeader with
    | Except.error e =>
      (Except.error ("failed to parse X-Payment header: " ++ e), [])
    | Except.ok paymentPayload =>
      if paymentPayload.scheme ≠ m.scheme ∨ paymentPayload.network ≠ m.network then
        (Except.error ("payment scheme/network mismatch: expected scheme=" ++ m.scheme
          ++ " network=" ++ m.network ++ ", got scheme=" ++ paymentPayload.scheme
          ++ " network=" ++ paymentPayload.network), [])
      else
        match f.createPaymentRequirements m.resource m.description m.network
            m.payTo m.maxAmountRequired with
        | Except.error e =>
          (Except.error ("create payment requirements failed: " ++ e), [])
        | Except.ok requirements =>
          let verifyReq : VerifyRequest := ⟨paymentPayload, requirements⟩
          match f.verify verifyReq with
          | Except.error e =>
            (Except.error ("payment verification failed: " ++ e),
              [FacCall.verifyCall verifyReq])
          | Except.ok verifyResp =>
            if ¬ verifyResp.isValid then
              (Except.error ("payment is invalid: " ++ verifyResp.invalidReason),
                [FacCall.verifyCall verifyReq])
            else
              match f.settle verifyReq with
              | Except.error e =>
                (Except.error ("payment settlement failed: " ++ e),
                  [FacCall.verifyCall verifyReq, FacCall.settleCall verifyReq])
              | Except.ok settleResp =>
                if ¬ settleResp.success then
                  (Except.error ("payment settlement failed: " ++ settleResp.errorReason),
                    [FacCall.verifyCall verifyReq, FacCall.settleCall verifyReq])
                else
                  (Except.ok (),
                    [FacCall.verifyCall verifyReq, FacCall.settleCall verifyReq])

/-- `returnPaymentRequired` from the seller middleware: builds the 402
challenge response, or fails when the facilitator is nil or
`CreatePaymentRequirements` errors. -/
def returnPaymentRequired (facilitator : Option Facilitator) (m : SellerConfig) :
    Except String SellerResponse :=
  match facilitator with
  | none => Except.error "facilitator is not initialized"
  | some f =>
    match f.createPaymentRequirements m.resource m.description m.network
        m.payTo m.maxAmountRequired with
    | Except.error e => Except.error ("create payment requirements failed: " ++ e)
    | Except.ok requirements =>
      Except.ok
        { headers := [("X-Payment-Required", "true"), ("Content-Type", "application/json")]
          status := 402
          body := SellerBody.challengeJson "payment_required"
            "Payment is required to access this resource" 402 requirements }

/-- The 402 `payment_failed` error response the seller writes when
`processPayment` returns an error. -/
def sellerErr402 (message : String) : SellerResult :=
  SellerResult.respond
    { headers := [("Content-Type", "application/json")]
      status := 402
      body := SellerBody.errJson "payment_failed" message 402 }

/-- `ServeHTTP` of the seller middleware.  `paymentHeader` is
`r.Header.Get("X-Payment")`, which returns `""` when the header is absent. -/
def sellerServeHTTP (facilitator : Option Facilitator)
    (decode : String → Except String PaymentPayload)
    (m : SellerConfig) (paymentHeader : String) :
    SellerResult × List FacCall :=
  if paymentHeader = "" then
    match returnPaymentRequired facilitator m with
    | Except.ok resp => (SellerResult.respond resp, [])
    | Except.error e =>
      (SellerResult.respond
        { headers := [("Content-Type", "application/json")]
          status := 500
          body := SellerBody.errJson "payment_failed" e 500 }, [])
  else
    match processPayment facilitator decode m paymentHeader with
    | (Except.error e, calls) => (sellerErr402 e, calls)
    | (Except.ok _, calls) => (SellerResult.next, calls)

/-! ## Buyer middleware (`X402BuyerMiddleware`) -/

/-- The runtime configuration of `X402BuyerMiddleware` relevant to the
embedded logic: the parsed spending cap and the wallet address derived from
the private key. -/
structure BuyerConfig where
  parsedMaxAmountPay : Int
  walletAddressHex : String
  deriving DecidableEq

/-- The body of a 402 response as decoded by `json.Unmarshal` into
`paymentRequiredResponse`. -/
structure PaymentRequiredResponse where
  error : String
  message : String
  code : Nat
  paymentRequirements : PaymentRequirements
  deriving DecidableEq

/-- The digits of `n` in base 16, lowercase, as Go's `%x` prints them. -/
def hexChar (n : Nat) : Char :=
  if n < 10 then Char.ofNat (Char.toNat '0' + n)
  else Char.ofNat (Char.toNat 'a' + (n - 10))

/-- One byte as two lowercase hex digits (Go `%x` on a byte). -/
def hexByte (b : UInt8) : String :=
  String.mk [hexChar (b.toNat / 16), hexChar (b.toNat % 16)]

/-- Go's `fmt.Sprintf("%x", s)` on a string: the UTF-8 bytes of `s`,
hex-encoded lowercase. -/
def goHexOfString (s : String) : String :=
  String.join (s.toUTF8.toList.map hexByte)

/-- `strconv.ParseInt(s, 10, 64)`: an optional sign followed by at least one
decimal digit, within the int64 range; `none` models the error return. -/
def parseInt64 (s : String) : Option Int :=
  let digitsVal : List Char → Option Nat := fun cs =>
    if cs = [] then none
    else
      cs.foldl (fun acc c =>
        acc.bind fun n =>
          if c.isDigit then some (n * 10 + (c.toNat - Char.toNat '0')) else none)
        (some 0)
  match s.toList with
  | [] => none
  | '+' :: rest =>
    (digitsVal rest).bind fun n =>
      if n ≤ 2 ^ 63 - 1 then some (n : Int) else none
  | '-' :: rest =>
    (digitsVal rest).bind fun n =>
      if n ≤ 2 ^ 63 then some (-(n : Int)) else none
  | cs =>
    (digitsVal cs).bind fun n =>
      if n ≤ 2 ^ 63 - 1 then some (n : Int) else none

/-- The argument tuple the buyer passes to the external
`client.CreatePaymentPayload`. -/
structure CreatePaymentPayloadArgs where
  requirements : PaymentRequirements
  validAfter : Int
  validBefore : Int
  chainId : Nat
  nonce : String
  deriving DecidableEq

/-- The computation inside `createPaymentPayload` (buyer middleware): the
validity window, the nonce, and the hardcoded chain id, as handed to
`client.CreatePaymentPayload`.  `keccakHex` abstracts
`crypto.Keccak256Hash(input).Hex()` from go-ethereum; `now` is
`time.Now().Unix()`. -/
def createPaymentPayloadArgs (cfg : BuyerConfig) (keccakHex : String → String)
    (requirements : PaymentRequirements) (now : Int) : CreatePaymentPayloadArgs :=
  let validDuration : Int := 300
  let validAfter := now - 600000
  let validBefore := now + validDuration
  let walletAddress := cfg.walletAddressHex
  let nonce := "0x" ++ goHexOfString
    (keccakHex (toString now ++ "-" ++ walletAddress ++ "-" ++ requirements.payTo))
  { requirements := requirements
    validAfter := validAfter
    validBefore := validBefore
    chainId := 1337
    nonce := nonce }

/-- What the buyer's `ServeHTTP` does to the real response writer after
inspecting the captured downstream response. -/
inductive BuyerAction where
  | flushOriginal
  | writeErr (status : Nat) (errType message : String)
  | retryWithPayment (paymentJSON : String)
  deriving DecidableEq

/-- Externally visible payment activity of one buyer `ServeHTTP` run, in
order: a payment payload was built; the retried request was submitted. -/
inductive BuyerEvent where
  | builtPayload
  | sentRetry
  deriving DecidableEq

/-- The tail of the buyer's `ServeHTTP` after the spending-cap check:
create the payload, marshal it, build the retry request, resubmit.
`createPayload` abstracts `m.createPaymentPayload` (which may fail inside
`client.CreatePaymentPayload`), `marshal` abstracts `json.Marshal`, and
`newRequest` abstracts `http.NewRequestWithContext` for the retry. -/
def buyerPay (paymentResp : PaymentRequiredResponse)
    (createPayload : PaymentRequirements → Except String String)
    (marshal : String → Except String String)
    (newRequest : Except String Unit) : BuyerAction × List BuyerEvent :=
  match createPayload paymentResp.paymentRequirements with
  | Except.error e =>
    (BuyerAction.writeErr 500 "payment_creation_failed"
      ("Failed to create payment: " ++ e), [])
  | Except.ok paymentPayload =>
    match marshal paymentPayload with
    | Except.error e =>
      (BuyerAction.writeErr 500 "payment_serialization_failed"
        ("Failed to serialize payment: " ++ e), [BuyerEvent.builtPayload])
    | Except.ok paymentJSON =>
      match newRequest with
      | Except.error e =>
        (BuyerAction.writeErr 500 "retry_request_failed"
          ("Failed to create retry request: " ++ e), [BuyerEvent.builtPayload])
      | Except.ok _ =>
        (BuyerAction.retryWithPayment paymentJSON,
          [BuyerEvent.builtPayload, BuyerEvent.sentRetry])

/-- `ServeHTTP` of the buyer middleware, after the downstream call completed
into the response capture.  `nextErr` is whether `next.ServeHTTP` returned an
error; `capturedStatus` is `rec.statusCode`; `parseBody` is the result of
`json.Unmarshal` on `rec.body.Bytes()`. -/
def buyerServeHTTP (cfg : BuyerConfig) (nextErr : Bool) (capturedStatus : Nat)
    (parseBody : Except String PaymentRequiredResponse)
    (createPayload : PaymentRequirements → Except String String)
    (marshal : String → Except String String)
    (newRequest : Except String Unit) : BuyerAction × List BuyerEvent :=
  if nextErr then (BuyerAction.flushOriginal, [])
  else if capturedStatus ≠ 402 then (BuyerAction.flushOriginal, [])
  else
    match parseBody with
    | Except.error _ => (BuyerAction.flushOriginal, [])
    | Except.ok paymentResp =>
      if cfg.parsedMaxAmountPay > 0 then
        match parseInt64 paymentResp.paymentRequirements.maxAmountRequired with
        | none =>
          (BuyerAction.writeErr 400 "invalid_payment_requirements"
            "Invalid max_amount_required in payment requirements", [])
        | some requiredAmount =>
          if requiredAmount > cfg.parsedMaxAmountPay then
            (BuyerAction.writeErr 402 "amount_limit_exceeded"
              ("Required payment amount " ++ toString requiredAmount
                ++ " exceeds max allowed amount " ++ toString cfg.parsedMaxAmountPay), [])
          else buyerPay paymentResp createPayload marshal newRequest
      else buyerPay paymentResp createPayload marshal newRequest

/-! ## Response capture (`responseCapture` / `flushResponse`) -/

/-- The state of a `responseCapture`: captured status code, body chunks in
write order, and whether a status decision was recorded. -/
structure ResponseCapture where
  statusCode : Nat
  body : List String
  written : Bool
  deriving DecidableEq

/-- The capture as `ServeHTTP` initialises it:
`&responseCapture{ResponseWriter: w, statusCode: http.StatusOK}`. -/
def rcInit : ResponseCapture := { statusCode := 200, body := [], written := false }

/-- `responseCapture.WriteHeader`: records the status only if nothing was
recorded yet; never touches the underlying writer. -/
def rcWriteHeader (statusCode : Nat) (r : ResponseCapture) : ResponseCapture :=
  if r.written then r else { r with statusCode := statusCode, written := true }

/-- `responseCapture.Write`: fixes the status at 200 if none was recorded
yet, then appends to the buffered body; never touches the underlying
writer. -/
def rcWrite (data : String) (r : ResponseCapture) : ResponseCapture :=
  let r' := if r.written then r else { r with statusCode := 200, written := true }
  { r' with body := r'.body ++ [data] }

/-- A call made on the capture by the downstream handler. -/
inductive CaptureOp where
  | writeHeader (statusCode : Nat)
  | write (data : String)
  deriving DecidableEq

/-- An operation performed on the real (underlying) response writer. -/
inductive RealEvent where
  | setHeader (key value : String)
  | writeHeader (status : Nat)
  | write (data : String)
  deriving DecidableEq

/-- One capture call acting on the pair (capture state, real-writer event
log).  Both methods only mutate the capture; the real writer is untouched,
as in the source, where neither method calls through to
`r.ResponseWriter`. -/
def captureStep (st : ResponseCapture × List RealEvent) (op : CaptureOp) :
    ResponseCapture × List RealEvent :=
  match op with
  | CaptureOp.writeHeader s => (rcWriteHeader s st.1, st.2)
  | CaptureOp.write d => (rcWrite d st.1, st.2)

/-- Run a sequence of downstream calls against the capture. -/
def runCapture (ops : List CaptureOp) (st : ResponseCapture × List RealEvent) :
    ResponseCapture × List RealEvent :=
  ops.foldl captureStep st

/-- `flushResponse`: copy the captured headers, write the captured status,
then write the buffered body to the real writer. -/
def flushResponse (headers : List (String × String)) (r : ResponseCapture)
    (out : List RealEvent) : List RealEvent :=
  out ++ headers.map (fun kv => RealEvent.setHeader kv.1 kv.2)
      ++ [RealEvent.writeHeader r.statusCode]
      ++ [RealEvent.write (String.join r.body)]

/-- The status the capture holds after its first downstream call. -/
def firstOpStatus : CaptureOp → Nat
  | CaptureOp.writeHeader s => s
  | CaptureOp.write _ => 200

/-! ## Concrete instances used to exercise the definitions -/

/-- A seller configuration matching the spec's example scenario. -/
def cfgLocalhost : SellerConfig :=
  { scheme := "exact", network := "localhost", resource := "/res"
    description := "desc", maxAmountRequired := "1000000", payTo := "0xABC" }

/-- A facilitator stub whose `CreatePaymentRequirements` echoes its arguments
into a requirements value and whose verify/settle return fixed results. -/
def mkFacilitator (vr : Except String VerifyResponse)
    (sr : Except String SettleResponse) : Facilitator :=
  { createPaymentRequirements := fun r d n p a =>
      Except.ok { scheme := "exact", network := n, resource := r,
                  description := d, payTo := p, maxAmountRequired := a }
    verify := fun _ => vr
    settle := fun _ => sr }

/-- A decoder stub that always fails, modelling an invalid-JSON header. -/
def decodeFailStub : String → Except String PaymentPayload :=
  fun _ => Except.error "invalid json"

/-- A decoder stub that always succeeds with the given payload. -/
def decodeOkStub (p : PaymentPayload) : String → Except String PaymentPayload :=
  fun _ => Except.ok p

/-- A 402 challenge body as the buyer would decode it. -/
def challengeResp (maxAmountRequired : String) : PaymentRequiredResponse :=
  { error := "payment_required", message := "Payment is required to access this resource"
    code := 402
    paymentRequirements :=
      { scheme := "exact", network := "localhost", resource := "/res"
        description := "desc", payTo := "0xABC", maxAmountRequired := maxAmountRequired } }

/-! ## Helper lemmas about the response capture -/

/-- Neither capture method emits anything on the real writer. -/
theorem runCapture_snd (ops : List CaptureOp) (st : ResponseCapture × List RealEvent) :
    (runCapture ops st).2 = st.2 := by
  induction ops generalizing st with
  | nil => rfl
  | cons op rest ih =>
    show (runCapture rest (captureStep st op)).2 = st.2
    rw [ih]
    cases op <;> rfl

/-- Once a status decision is recorded, further capture calls keep it. -/
theorem runCapture_statusCode_of_written (ops : List CaptureOp)
    (st : ResponseCapture × List RealEvent) (h : st.1.written = true) :
    (runCapture ops st).1.statusCode = st.1.statusCode ∧
    (runCapture ops st).1.written = true := by
  induction ops generalizing st with
  | nil => exact ⟨rfl, h⟩
  | cons op rest ih =>
    have hstep : (captureStep st op).1.statusCode = st.1.statusCode ∧
        (captureStep st op).1.written = true := by
      cases op <;> simp [captureStep, rcWriteHeader, rcWrite, h]
    have hrun : runCapture (op :: rest) st = runCapture rest (captureStep st op) := rfl
    rw [hrun]
    obtain ⟨h1, h2⟩ := ih (captureStep st op) hstep.2
    exact ⟨h1.trans hstep.1, h2⟩

/-! ## Helper lemma: exhaustive case analysis of `processPayment` -/

/-- Every run of `processPayment` with a live facilitator either stops before
any facilitator verify/settle call, stops after verify alone, or performs
verify then settle — and it reaches settle only when verify returned a valid
response.  In the settle cases the result is determined by the settle
outcome. -/
theorem processPayment_cases (f : Facilitator)
    (decode : String → Except String PaymentPayload) (m : SellerConfig)
    (h : String) (res : Except String Unit) (calls : List FacCall)
    (hpp : processPayment (some f) decode m h = (res, calls)) :
    (calls = [] ∧ ∃ e, res = Except.error e) ∨
    (∃ vr e, calls = [FacCall.verifyCall vr] ∧ res = Except.error e) ∨
    (∃ vr v, calls = [FacCall.verifyCall vr, FacCall.settleCall vr] ∧
      f.verify vr = Except.ok v ∧ v.isValid = true ∧
      ((∃ e, f.settle vr = Except.error e ∧
          res = Except.error ("payment settlement failed: " ++ e)) ∨
       (∃ s, f.settle vr = Except.ok s ∧ s.success = false ∧
          res = Except.error ("payment settlement failed: " ++ s.errorReason)) ∨
       (∃ s, f.settle vr = Except.ok s ∧ s.success = true ∧
          res = Except.ok ()))) := by
  simp only [processPayment] at hpp
  rcases hdec : decode h with e | p <;> simp only [hdec] at hpp
  · injection hpp with h1 h2
    subst h1 h2
    exact Or.inl ⟨rfl, _, rfl⟩
  · by_cases hmis : p.scheme ≠ m.scheme ∨ p.network ≠ m.network
    · rw [if_pos hmis] at hpp
      injection hpp with h1 h2
      subst h1 h2
      exact Or.inl ⟨rfl, _, rfl⟩
    · rw [if_neg hmis] at hpp
      rcases hcr : f.createPaymentRequirements m.resource m.description m.network
          m.payTo m.maxAmountRequired with e | reqs <;> simp only [hcr] at hpp
      · injection hpp with h1 h2
        subst h1 h2
        exact Or.inl ⟨rfl, _, rfl⟩
      · rcases hv : f.verify ⟨p, reqs⟩ with e | v <;> simp only [hv] at hpp
        · injection hpp with h1 h2
          subst h1 h2
          exact Or.inr (Or.inl ⟨⟨p, reqs⟩, _, rfl, rfl⟩)
        · by_cases hvalid : v.isValid = true
          · rw [if_neg (not_not_intro hvalid)] at hpp
            rcases hs : f.settle ⟨p, reqs⟩ with e | s <;> simp only [hs] at hpp
            · injection hpp with h1 h2
              subst h1 h2
              exact Or.inr (Or.inr ⟨⟨p, reqs⟩, v, rfl, hv, hvalid,
                Or.inl ⟨e, hs, rfl⟩⟩)
            · by_cases hsucc : s.success = true
              · rw [if_neg (not_not_intro hsucc)] at hpp
                injection hpp with h1 h2
                subst h1 h2
                exact Or.inr (Or.inr ⟨⟨p, reqs⟩, v, rfl, hv, hvalid,
                  Or.inr (Or.inr ⟨s, hs, hsucc, rfl⟩)⟩)
              · rw [if_pos hsucc] at hpp
                injection hpp with h1 h2
                subst h1 h2
                exact Or.inr (Or.inr ⟨⟨p, reqs⟩, v, rfl, hv, hvalid,
                  Or.inr (Or.inl ⟨s, hs, Bool.not_eq_true _ ▸ hsucc, rfl⟩)⟩)
          · rw [if_pos hvalid] at hpp
            injection hpp with h1 h2
            subst h1 h2
            exact Or.inr (Or.inl ⟨⟨p, reqs⟩, _, rfl, rfl⟩)

/-! ## Claim theorems -/

/-- C7: for every payload the buyer constructs at unix time `now`,
`validBefore = now + 300` and `validAfter = now - 600000` (a large negative
offset); hence `validAfter < validBefore` for every `now`, and the window
already contains `now` itself, so the authorization is immediately usable. -/
theorem buyer_validity_window (cfg : BuyerConfig) (keccakHex : String → String)
    (requirements : PaymentRequirements) (now : Int) :
    (createPaymentPayloadArgs cfg keccakHex requirements now).validBefore = now + 300 ∧
    (createPaymentPayloadArgs cfg keccakHex requirements now).validAfter = now - 600000 ∧
    (createPaymentPayloadArgs cfg keccakHex requirements now).validAfter <
      (createPaymentPayloadArgs cfg keccakHex requirements now).validBefore ∧
    (createPaymentPayloadArgs cfg keccakHex requirements now).validAfter ≤ now ∧
    now ≤ (createPaymentPayloadArgs cfg keccakHex requirements now).validBefore := by
  refine ⟨rfl, rfl, ?_, ?_, ?_⟩ <;> (simp only [createPaymentPayloadArgs]; omega)

/-- C9: the chain id handed to `client.CreatePaymentPayload` is the constant
1337, whatever the requirements (including their network) and whatever chain
networks are configured. -/
theorem buyer_chain_id_hardcoded (cfg : BuyerConfig) (keccakHex : String → String)
    (requirements : PaymentRequirements) (now : Int)
    (_networks : List ChainNetworkConfig) :
    (createPaymentPayloadArgs cfg keccakHex requirements now).chainId = 1337 := rfl

/-- C8: the buyer's nonce depends only on the second-granularity timestamp,
the payer's wallet address and the recipient address: two constructions that
agree on those three inputs produce identical nonces, whatever the remaining
requirement fields are. -/
theorem buyer_nonce_deterministic (keccakHex : String → String)
    (cfg₁ cfg₂ : BuyerConfig) (r₁ r₂ : PaymentRequirements) (now₁ now₂ : Int)
    (hw : cfg₁.walletAddressHex = cfg₂.walletAddressHex)
    (hp : r₁.payTo = r₂.payTo) (hn : now₁ = now₂) :
    (createPaymentPayloadArgs cfg₁ keccakHex r₁ now₁).nonce =
      (createPaymentPayloadArgs cfg₂ keccakHex r₂ now₂).nonce := by
  simp [createPaymentPayloadArgs, hw, hp, hn]

/-- Witness for C8: two constructions in the same second, same wallet, same
payee, but different spending caps, resources, descriptions, networks and
amounts, yield the same nonce. -/
theorem buyer_nonce_deterministic_witness :
    (createPaymentPayloadArgs ⟨1000000, "0xW"⟩ (fun s => s)
        ⟨"exact", "localhost", "/res1", "d1", "0xP", "5"⟩ 42).nonce =
      (createPaymentPayloadArgs ⟨0, "0xW"⟩ (fun s => s)
        ⟨"exact", "mainnet", "/res2", "d2", "0xP", "7"⟩ 42).nonce :=
  buyer_nonce_deterministic (fun s => s) _ _ _ _ _ _ rfl rfl rfl

/-- C10: the response capture writes nothing to the real writer (only
`flushResponse` does), and it records only the first status decision: the
captured status after any call sequence equals the status fixed by the first
call — the argument of a first `WriteHeader`, or 200 for a first `Write` —
and later `WriteHeader` calls leave it unchanged. -/
theorem responseCapture_first_decision (out : List RealEvent) :
    (∀ ops : List CaptureOp, (runCapture ops (rcInit, out)).2 = out) ∧
    (∀ (op : CaptureOp) (rest : List CaptureOp),
      (runCapture (op :: rest) (rcInit, out)).1.statusCode = firstOpStatus op) := by
  constructor
  · intro ops
    exact runCapture_snd ops (rcInit, out)
  · intro op rest
    show (runCapture rest (captureStep (rcInit, out) op)).1.statusCode = _
    cases op with
    | writeHeader s =>
      have hstep : captureStep (rcInit, out) (CaptureOp.writeHeader s)
          = (⟨s, [], true⟩, out) := by
        simp [captureStep, rcWriteHeader, rcInit]
      rw [hstep]
      exact (runCapture_statusCode_of_written rest _ rfl).1
    | write d =>
      have hstep : captureStep (rcInit, out) (CaptureOp.write d)
          = (⟨200, [d], true⟩, out) := by
        simp [captureStep, rcWrite, rcInit]
      rw [hstep]
      exact (runCapture_statusCode_of_written rest _ rfl).1

/-- C6: a 402 challenge whose parsed `maxAmountRequired` exceeds a positive
configured spending cap makes the buyer answer 402 `amount_limit_exceeded`;
the event trace is empty, so no payload is built and no retry is sent,
whatever the payload-creation, marshalling and request-building oracles
would do. -/
theorem buyer_spending_cap (cfg : BuyerConfig) (paymentResp : PaymentRequiredResponse)
    (requiredAmount : Int)
    (hcap : cfg.parsedMaxAmountPay > 0)
    (hparse : parseInt64 paymentResp.paymentRequirements.maxAmountRequired
      = some requiredAmount)
    (hgt : requiredAmount > cfg.parsedMaxAmountPay) :
    ∀ (createPayload : PaymentRequirements → Except String String)
      (marshal : String → Except String String) (newRequest : Except String Unit),
      buyerServeHTTP cfg false 402 (Except.ok paymentResp)
          createPayload marshal newRequest =
        (BuyerAction.writeErr 402 "amount_limit_exceeded"
          ("Required payment amount " ++ toString requiredAmount
            ++ " exceeds max allowed amount " ++ toString cfg.parsedMaxAmountPay), []) := by
  intro createPayload marshal newRequest
  simp [buyerServeHTTP, hparse, hcap, hgt]

/-- Witness for C6: the spec's spending-cap scenario — cap `500000`,
challenge requiring `1000000`. -/
theorem buyer_spending_cap_witness :
    buyerServeHTTP ⟨500000, "0xW"⟩ false 402 (Except.ok (challengeResp "1000000"))
        (fun _ => Except.ok "payload") (fun s => Except.ok s) (Except.ok ()) =
      (BuyerAction.writeErr 402 "amount_limit_exceeded"
        ("Required payment amount " ++ toString (1000000 : Int)
          ++ " exceeds max allowed amount " ++ toString (500000 : Int)), []) :=
  buyer_spending_cap ⟨500000, "0xW"⟩ (challengeResp "1000000") 1000000
    (by decide) (by decide) (by decide) _ _ _

/-- C2: with no `X-Payment` header (the header value is `""`), the seller
writes 402 with `X-Payment-Required: true`, `Content-Type: application/json`
and the challenge JSON body carrying `error = "payment_required"`, a message,
`code = 402` and the requirements built from the configured resource,
description, network, payTo and maxAmountRequired; the downstream handler is
never invoked on this path, whatever the facilitator is. -/
theorem seller_challenge_on_missing_payment (f : Facilitator)
    (decode : String → Except String PaymentPayload) (m : SellerConfig)
    (requirements : PaymentRequirements)
    (hreq : f.createPaymentRequirements m.resource m.description m.network
      m.payTo m.maxAmountRequired = Except.ok requirements) :
    sellerServeHTTP (some f) decode m "" =
      (SellerResult.respond
        { headers := [("X-Payment-Required", "true"), ("Content-Type", "application/json")]
          status := 402
          body := SellerBody.challengeJson "payment_required"
            "Payment is required to access this resource" 402 requirements }, []) ∧
    (∀ facilitator : Option Facilitator,
      (sellerServeHTTP facilitator decode m "").1 ≠ SellerResult.next) := by
  constructor
  · simp [sellerServeHTTP, returnPaymentRequired, hreq]
  · intro facilitator
    cases facilitator with
    | none => simp [sellerServeHTTP, returnPaymentRequired]
    | some f' =>
      simp only [sellerServeHTTP, returnPaymentRequired, if_pos rfl]
      rcases hc : f'.createPaymentRequirements m.resource m.description m.network
          m.payTo m.maxAmountRequired with e | r <;> simp

/-- Witness for C2: the spec's no-payment scenario, with a stub facilitator
echoing the configured fields into the requirements. -/
theorem seller_challenge_on_missing_payment_witness :
    sellerServeHTTP (some (mkFacilitator (Except.ok ⟨true, ""⟩)
          (Except.ok ⟨true, "0xP", "0xT", ""⟩))) decodeFailStub cfgLocalhost "" =
      (SellerResult.respond
        { headers := [("X-Payment-Required", "true"), ("Content-Type", "application/json")]
          status := 402
          body := SellerBody.challengeJson "payment_required"
            "Payment is required to access this resource" 402
            { scheme := "exact", network := "localhost", resource := "/res"
              description := "desc", payTo := "0xABC", maxAmountRequired := "1000000" } }, []) ∧
    (∀ facilitator : Option Facilitator,
      (sellerServeHTTP facilitator decodeFailStub cfgLocalhost "").1 ≠ SellerResult.next) :=
  seller_challenge_on_missing_payment
    (mkFacilitator (Except.ok ⟨true, ""⟩) (Except.ok ⟨true, "0xP", "0xT", ""⟩))
    decodeFailStub cfgLocalhost _ rfl

/-- C3 counterexample: a present but undecodable `X-Payment` header is
answered with status 402 and an `error = "payment_failed"` body — not with
status 400 and an `invalid_payment_requirements`-class body as claimed. -/
theorem seller_decode_fail_counterexample :
    sellerServeHTTP (some (mkFacilitator (Except.ok ⟨true, ""⟩)
          (Except.ok ⟨true, "0xP", "0xT", ""⟩))) decodeFailStub cfgLocalhost "notjson" =
      (SellerResult.respond
        { headers := [("Content-Type", "application/json")]
          status := 402
          body := SellerBody.errJson "payment_failed"
            "failed to parse X-Payment header: invalid json" 402 }, []) ∧
    (402 : Nat) ≠ 400 ∧ "payment_failed" ≠ "invalid_payment_requirements" :=
  ⟨rfl, by decide, by decide⟩

/-- C3 amended: a present `X-Payment` header that fails decoding is rejected
with HTTP 402 (not 400) and a `payment_failed` error body whose message
reports the parse failure; the downstream handler is not invoked and the
facilitator is never called. -/
theorem seller_decode_fail_rejects (f : Facilitator)
    (decode : String → Except String PaymentPayload) (m : SellerConfig)
    (h e : String) (hne : h ≠ "") (hdec : decode h = Except.error e) :
    sellerServeHTTP (some f) decode m h =
      (sellerErr402 ("failed to parse X-Payment header: " ++ e), []) := by
  simp [sellerServeHTTP, hne, processPayment, hdec]

/-- Witness for the amended C3, at the counterexample's input. -/
theorem seller_decode_fail_rejects_witness :
    sellerServeHTTP (some (mkFacilitator (Except.ok ⟨true, ""⟩)
          (Except.ok ⟨true, "0xP", "0xT", ""⟩))) decodeFailStub cfgLocalhost "notjson" =
      (sellerErr402 ("failed to parse X-Payment header: " ++ "invalid json"), []) :=
  seller_decode_fail_rejects
    (mkFacilitator (Except.ok ⟨true, ""⟩) (Except.ok ⟨true, "0xP", "0xT", ""⟩))
    decodeFailStub cfgLocalhost "notjson" "invalid json" (by decide) rfl

/-- C5: a decoded payload whose scheme or network differs from the configured
ones is rejected with 402 and the mismatch message, and the facilitator call
trace is empty — verify and settle are never invoked. -/
theorem seller_scheme_network_mismatch (f : Facilitator)
    (decode : String → Except String PaymentPayload) (m : SellerConfig)
    (h : String) (p : PaymentPayload) (hne : h ≠ "")
    (hdec : decode h = Except.ok p)
    (hmis : p.scheme ≠ m.scheme ∨ p.network ≠ m.network) :
    sellerServeHTTP (some f) decode m h =
      (sellerErr402 ("payment scheme/network mismatch: expected scheme=" ++ m.scheme
        ++ " network=" ++ m.network ++ ", got scheme=" ++ p.scheme
        ++ " network=" ++ p.network), []) := by
  simp only [sellerServeHTTP, if_neg hne, processPayment, hdec]
  rw [if_pos hmis]

/-- Witness for C5: the spec's mismatch scenario — payload for `mainnet`
against an interceptor configured for `localhost`. -/
theorem seller_scheme_network_mismatch_witness :
    sellerServeHTTP (some (mkFacilitator (Except.ok ⟨true, ""⟩)
          (Except.ok ⟨true, "0xP", "0xT", ""⟩)))
        (decodeOkStub ⟨"exact", "mainnet"⟩) cfgLocalhost "payload" =
      (sellerErr402 ("payment scheme/network mismatch: expected scheme=" ++ "exact"
        ++ " network=" ++ "localhost" ++ ", got scheme=" ++ "exact"
        ++ " network=" ++ "mainnet"), []) :=
  seller_scheme_network_mismatch
    (mkFacilitator (Except.ok ⟨true, ""⟩) (Except.ok ⟨true, "0xP", "0xT", ""⟩))
    (decodeOkStub ⟨"exact", "mainnet"⟩) cfgLocalhost "payload" ⟨"exact", "mainnet"⟩
    (by decide) rfl (Or.inr (by decide))

/-- C1: on any request carrying a payment header, the seller's facilitator
call trace is empty, verify alone, or verify followed by settle on the same
request, with settle reached only after verify returned `isValid = true`;
the downstream handler runs only when settle returned `success = true`; and
when settle errors or returns `success = false` after a valid verify, the
caller receives the 402 `payment_failed` response carrying the settlement
failure and the downstream handler is not invoked. -/
theorem seller_verify_before_settle (f : Facilitator)
    (decode : String → Except String PaymentPayload) (m : SellerConfig)
    (h : String) (hne : h ≠ "") (res : SellerResult) (calls : List FacCall)
    (hrun : sellerServeHTTP (some f) decode m h = (res, calls)) :
    (calls = [] ∨ (∃ vr, calls = [FacCall.verifyCall vr]) ∨
      (∃ vr v, calls = [FacCall.verifyCall vr, FacCall.settleCall vr] ∧
        f.verify vr = Except.ok v ∧ v.isValid = true)) ∧
    (res = SellerResult.next →
      ∃ vr s, FacCall.settleCall vr ∈ calls ∧ f.settle vr = Except.ok s ∧
        s.success = true) ∧
    (∀ vr, FacCall.settleCall vr ∈ calls →
      (∀ e, f.settle vr = Except.error e →
        res = sellerErr402 ("payment settlement failed: " ++ e) ∧
        res ≠ SellerResult.next) ∧
      (∀ s, f.settle vr = Except.ok s → s.success = false →
        res = sellerErr402 ("payment settlement failed: " ++ s.errorReason) ∧
        res ≠ SellerResult.next)) := by
  rcases hpp : processPayment (some f) decode m h with ⟨pr, pcalls⟩
  have hser : (res, calls) =
      ((match pr with
        | Except.error e => sellerErr402 e
        | Except.ok _ => SellerResult.next), pcalls) := by
    rw [← hrun]
    simp only [sellerServeHTTP, if_neg hne, hpp]
    cases pr <;> rfl
  rcases processPayment_cases f decode m h pr pcalls hpp with
    ⟨hc, e, hr⟩ | ⟨vr, e, hc, hr⟩ | ⟨vr, v, hc, hv, hvalid, hrest⟩
  · subst hc hr
    injection hser with h1 h2
    subst h1 h2
    refine ⟨Or.inl rfl, ?_, ?_⟩
    · intro hnx
      exact absurd hnx (by simp [sellerErr402])
    · intro vr hmem
      exact absurd hmem (by simp)
  · subst hc hr
    injection hser with h1 h2
    subst h1 h2
    refine ⟨Or.inr (Or.inl ⟨vr, rfl⟩), ?_, ?_⟩
    · intro hnx
      exact absurd hnx (by simp [sellerErr402])
    · intro vr' hmem
      exact absurd hmem (by simp)
  · subst hc
    rcases hrest with ⟨e, hs, hr⟩ | ⟨s, hs, hsf, hr⟩ | ⟨s, hs, hst, hr⟩ <;> subst hr <;>
      injection hser with h1 h2 <;> subst h1 h2
    · refine ⟨Or.inr (Or.inr ⟨vr, v, rfl, hv, hvalid⟩), ?_, ?_⟩
      · intro hnx
        exact absurd hnx (by simp [sellerErr402])
      · intro vr' hmem
        have hvr : vr' = vr := by simpa using hmem
        subst hvr
        refine ⟨?_, ?_⟩
        · intro e' he'
          rw [hs] at he'
          injection he' with he''
          subst he''
          exact ⟨rfl, by simp [sellerErr402]⟩
        · intro s' hs' _
          rw [hs] at hs'
          exact absurd hs' (by simp)
    · refine ⟨Or.inr (Or.inr ⟨vr, v, rfl, hv, hvalid⟩), ?_, ?_⟩
      · intro hnx
        exact absurd hnx (by simp [sellerErr402])
      · intro vr' hmem
        have hvr : vr' = vr := by simpa using hmem
        subst hvr
        refine ⟨?_, ?_⟩
        · intro e' he'
          rw [hs] at he'
          exact absurd he' (by simp)
        · intro s' hs' _
          rw [hs] at hs'
          injection hs' with hs''
          subst hs''
          exact ⟨rfl, by simp [sellerErr402]⟩
    · refine ⟨Or.inr (Or.inr ⟨vr, v, rfl, hv, hvalid⟩), ?_, ?_⟩
      · intro _
        exact ⟨vr, s, by simp, hs, hst⟩
      · intro vr' hmem
        have hvr : vr' = vr := by simpa using hmem
        subst hvr
        refine ⟨?_, ?_⟩
        · intro e' he'
          rw [hs] at he'
          exact absurd he' (by simp)
        · intro s' hs' hsf'
          rw [hs] at hs'
          injection hs' with hs''
          subst hs''
          rw [hst] at hsf'
          exact absurd hsf' (by simp)

/-- Witness for C1, at the spec's settlement-failure scenario: the stub
facilitator verifies as valid but settles with
`success = false, errorReason = "insufficient_funds"`; the trace is verify
then settle, the caller receives the 402 with `"insufficient_funds"` in the
message, and the downstream handler is not invoked. -/
theorem seller_verify_before_settle_witness :
    ((sellerServeHTTP (some (mkFacilitator (Except.ok ⟨true, ""⟩)
            (Except.ok ⟨false, "", "", "insufficient_funds"⟩)))
          (decodeOkStub ⟨"exact", "localhost"⟩) cfgLocalhost "payload").2 = [] ∨
      (∃ vr, (sellerServeHTTP (some (mkFacilitator (Except.ok ⟨true, ""⟩)
            (Except.ok ⟨false, "", "", "insufficient_funds"⟩)))
          (decodeOkStub ⟨"exact", "localhost"⟩) cfgLocalhost "payload").2
        = [FacCall.verifyCall vr]) ∨
      (∃ vr v, (sellerServeHTTP (some (mkFacilitator (Except.ok ⟨true, ""⟩)
            (Except.ok ⟨false, "", "", "insufficient_funds"⟩)))
          (decodeOkStub ⟨"exact", "localhost"⟩) cfgLocalhost "payload").2
          = [FacCall.verifyCall vr, FacCall.settleCall vr] ∧
        (mkFacilitator (Except.ok ⟨true, ""⟩)
            (Except.ok ⟨false, "", "", "insufficient_funds"⟩)).verify vr
          = Except.ok v ∧ v.isValid = true)) ∧
    ((sellerServeHTTP (some (mkFacilitator (Except.ok ⟨true, ""⟩)
            (Except.ok ⟨false, "", "", "insufficient_funds"⟩)))
          (decodeOkStub ⟨"exact", "localhost"⟩) cfgLocalhost "payload").1
        = SellerResult.next →
      ∃ vr s, FacCall.settleCall vr ∈ (sellerServeHTTP (some (mkFacilitator
            (Except.ok ⟨true, ""⟩) (Except.ok ⟨false, "", "", "insufficient_funds"⟩)))
          (decodeOkStub ⟨"exact", "localhost"⟩) cfgLocalhost "payload").2 ∧
        (mkFacilitator (Except.ok ⟨true, ""⟩)
            (Except.ok ⟨false, "", "", "insufficient_funds"⟩)).settle vr
          = Except.ok s ∧ s.success = true) ∧
    (∀ vr, FacCall.settleCall vr ∈ (sellerServeHTTP (some (mkFacilitator
            (Except.ok ⟨true, ""⟩) (Except.ok ⟨false, "", "", "insufficient_funds"⟩)))
          (decodeOkStub ⟨"exact", "localhost"⟩) cfgLocalhost "payload").2 →
      (∀ e, (mkFacilitator (Except.ok ⟨true, ""⟩)
            (Except.ok ⟨false, "", "", "insufficient_funds"⟩)).settle vr
          = Except.error e →
        (sellerServeHTTP (some (mkFacilitator (Except.ok ⟨true, ""⟩)
            (Except.ok ⟨false, "", "", "insufficient_funds"⟩)))
          (decodeOkStub ⟨"exact", "localhost"⟩) cfgLocalhost "payload").1
          = sellerErr402 ("payment settlement failed: " ++ e) ∧
        (sellerServeHTTP (some (mkFacilitator (Except.ok ⟨true, ""⟩)
            (Except.ok ⟨false, "", "", "insufficient_funds"⟩)))
          (decodeOkStub ⟨"exact", "localhost"⟩) cfgLocalhost "payload").1
          ≠ SellerResult.next) ∧
      (∀ s, (mkFacilitator (Except.ok ⟨true, ""⟩)
            (Except.ok ⟨false, "", "", "insufficient_funds"⟩)).settle vr
          = Except.ok s → s.success = false →
        (sellerServeHTTP (some (mkFacilitator (Except.ok ⟨true, ""⟩)
            (Except.ok ⟨false, "", "", "insufficient_funds"⟩)))
          (decodeOkStub ⟨"exact", "localhost"⟩) cfgLocalhost "payload").1
          = sellerErr402 ("payment settlement failed: " ++ s.errorReason) ∧
        (sellerServeHTTP (some (mkFacilitator (Except.ok ⟨true, ""⟩)
            (Except.ok ⟨false, "", "", "insufficient_funds"⟩)))
          (decodeOkStub ⟨"exact", "localhost"⟩) cfgLocalhost "payload").1
          ≠ SellerResult.next)) :=
  seller_verify_before_settle
    (mkFacilitator (Except.ok ⟨true, ""⟩)
      (Except.ok ⟨false, "", "", "insufficient_funds"⟩))
    (decodeOkStub ⟨"exact", "localhost"⟩) cfgLocalhost "payload" (by decide)
    _ _ rfl

/-- C4 counterexample: facing a 402 whose `maxAmountRequired` does not parse,
the buyer does not forward the original 402 — it writes a fresh
`400 invalid_payment_requirements` response. -/
theorem buyer_fail_open_counterexample :
    buyerServeHTTP ⟨500000, "0xW"⟩ false 402 (Except.ok (challengeResp "notanumber"))
        (fun _ => Except.ok "payload") (fun s => Except.ok s) (Except.ok ()) =
      (BuyerAction.writeErr 400 "invalid_payment_requirements"
        "Invalid max_amount_required in payment requirements", []) ∧
    BuyerAction.writeErr 400 "invalid_payment_requirements"
        "Invalid max_amount_required in payment requirements" ≠
      BuyerAction.flushOriginal :=
  ⟨rfl, by decide⟩

/-- C4 amended: the buyer fails open to the original response only on a
downstream transport error, a non-402 status, or a 402 body that does not
parse; an unparseable `maxAmountRequired` (under a positive cap) yields a new
`400 invalid_payment_requirements` response, and payload-creation,
payload-serialization and retry-request-construction failures yield new 500
error responses instead of the original 402. -/
theorem buyer_failure_handling (cfg : BuyerConfig) (capturedStatus : Nat)
    (parseBody : Except String PaymentRequiredResponse)
    (createPayload : PaymentRequirements → Except String String)
    (marshal : String → Except String String)
    (newRequest : Except String Unit) :
    (buyerServeHTTP cfg true capturedStatus parseBody createPayload marshal newRequest
        = (BuyerAction.flushOriginal, [])) ∧
    (capturedStatus ≠ 402 →
      buyerServeHTTP cfg false capturedStatus parseBody createPayload marshal newRequest
        = (BuyerAction.flushOriginal, [])) ∧
    (∀ e, parseBody = Except.error e →
      buyerServeHTTP cfg false 402 parseBody createPayload marshal newRequest
        = (BuyerAction.flushOriginal, [])) ∧
    (∀ resp, parseBody = Except.ok resp → cfg.parsedMaxAmountPay > 0 →
      parseInt64 resp.paymentRequirements.maxAmountRequired = none →
      buyerServeHTTP cfg false 402 parseBody createPayload marshal newRequest
        = (BuyerAction.writeErr 400 "invalid_payment_requirements"
            "Invalid max_amount_required in payment requirements", [])) ∧
    (∀ resp e, createPayload resp.paymentRequirements = Except.error e →
      buyerPay resp createPayload marshal newRequest
        = (BuyerAction.writeErr 500 "payment_creation_failed"
            ("Failed to create payment: " ++ e), [])) ∧
    (∀ resp p e, createPayload resp.paymentRequirements = Except.ok p →
      marshal p = Except.error e →
      buyerPay resp createPayload marshal newRequest
        = (BuyerAction.writeErr 500 "payment_serialization_failed"
            ("Failed to serialize payment: " ++ e), [BuyerEvent.builtPayload])) ∧
    (∀ resp p j e, createPayload resp.paymentRequirements = Except.ok p →
      marshal p = Except.ok j → newRequest = Except.error e →
      buyerPay resp createPayload marshal newRequest
        = (BuyerAction.writeErr 500 "retry_request_failed"
            ("Failed to create retry request: " ++ e), [BuyerEvent.builtPayload])) := by
  refine ⟨?_, ?_, ?_, ?_, ?_, ?_, ?_⟩
  · simp [buyerServeHTTP]
  · intro hst
    simp [buyerServeHTTP, hst]
  · intro e he
    simp [buyerServeHTTP, he]
  · intro resp hok hcap hnone
    simp [buyerServeHTTP, hok, hcap, hnone]
  · intro resp e hcp
    simp [buyerPay, hcp]
  · intro resp p e hcp hm
    simp [buyerPay, hcp, hm]
  · intro resp p j e hcp hm hnr
    simp [buyerPay, hcp, hm, hnr]

/-- Witness for the amended C4: a malformed 402 body is forwarded verbatim,
while a failing payload creation produces a fresh 500 response. -/
theorem buyer_failure_handling_witness :
    buyerServeHTTP ⟨500000, "0xW"⟩ false 402 (Except.error "bad json")
        (fun _ => Except.error "no key") (fun s => Except.ok s) (Except.ok ()) =
      (BuyerAction.flushOriginal, []) ∧
    buyerPay (challengeResp "1000") (fun _ => Except.error "no key")
        (fun s => Except.ok s) (Except.ok ()) =
      (BuyerAction.writeErr 500 "payment_creation_failed"
        ("Failed to create payment: " ++ "no key"), []) := by
  have h := buyer_failure_handling ⟨500000, "0xW"⟩ 402 (Except.error "bad json")
    (fun _ => Except.error "no key") (fun s => Except.ok s) (Except.ok ())
  exact ⟨h.2.2.1 "bad json" rfl, h.2.2.2.2.1 (challengeResp "1000") "no key" rfl⟩

end X402Pay
